import Mathlib

/-!
Shallow embedding of the navigation core of the markdownwiki application
(src/main.py, class MarkdownWiki) together with a pathlib-style POSIX path
model and an abstract filesystem, followed by theorems about the claims of
the specification.
-/

/-- POSIX path in the normal form kept by Python's `pathlib.PurePosixPath`:
an absolute flag plus the list of parts, with empty and `"."` parts dropped
and `".."` parts kept. -/
structure PyPath where
  absolute : Bool
  segments : List String
deriving DecidableEq, Repr

/-- Split a character list on `/`, keeping empty pieces (like
`str.split("/")` in Python). -/
def splitSlash : List Char → List (List Char)
  | [] => [[]]
  | c :: rest =>
    match splitSlash rest with
    | [] => [[]]
    | seg :: segs => if c = '/' then [] :: seg :: segs else (c :: seg) :: segs

/-- Embeds `pathlib.Path(s)` for a POSIX path string: absolute iff the string
starts with `/`; parts are the slash-separated pieces with `""` and `"."`
dropped (`Path("")` equals `Path(".")`, both the empty relative path). -/
def parsePath (s : String) : PyPath :=
  ⟨match s.data with | '/' :: _ => true | _ => false,
   ((splitSlash s.data).map String.mk).filter (fun seg => seg ≠ "" && seg ≠ ".")⟩

/-- Embeds the `/` join operator of pathlib: an absolute right operand
replaces the left one, otherwise the parts are concatenated. -/
def PyPath.join (p q : PyPath) : PyPath :=
  if q.absolute then q else ⟨p.absolute, p.segments ++ q.segments⟩

/-- Embeds `pathlib.Path.parent`: drop the last part; the root and the empty
relative path are their own parent. -/
def PyPath.parent (p : PyPath) : PyPath :=
  ⟨p.absolute, p.segments.dropLast⟩

/-- Collapse `".."` parts left to right, as `Path.resolve()` does on a
symlink-free filesystem; a `".."` at the root stays at the root. -/
def resolveSegs (segs : List String) : List String :=
  segs.foldl (fun acc seg => if seg = ".." then acc.dropLast else acc ++ [seg]) []

/-- Embeds `pathlib.Path.resolve()` (non-strict, no symlinks): make the path
absolute against the process working directory `cwd`, then collapse `".."`
parts. The result is canonical: absolute and free of `".."`. -/
def PyPath.resolve (cwd p : PyPath) : PyPath :=
  ⟨true, resolveSegs (if p.absolute then p else cwd.join p).segments⟩

/-- Embeds `pathlib.Path.parents`: the list of strict ancestors of a path
(every proper prefix of its parts, down to the root or the empty relative
path). -/
def PyPath.parentsList (p : PyPath) : List PyPath :=
  (List.range p.segments.length).map (fun n => ⟨p.absolute, p.segments.take n⟩)

/-- A canonical path is equal to `root` or has `root` among its ancestors:
the containment notion used by the spec ("equal to the wiki root or a
descendant of it"). -/
def withinRoot (root p : PyPath) : Prop :=
  p = root ∨ root ∈ p.parentsList

instance (root p : PyPath) : Decidable (withinRoot root p) :=
  inferInstanceAs (Decidable (_ ∨ _))

/-- Filesystem entry at a path: nothing, a directory, or a regular file with
its text content. -/
inductive Entry
  | none
  | dir
  | file (content : String)
deriving DecidableEq, Repr

/-- Abstract filesystem: what the OS reports at each (canonical) path. -/
def FS : Type := PyPath → Entry

/-- Embeds `open(path, 'r').read()`: succeeds exactly on a regular file
(reading a directory or a missing path raises). -/
def readFile (fs : FS) (p : PyPath) : Option String :=
  match fs p with
  | .file c => some c
  | _ => Option.none

/-- Embeds `open(path, 'w').write(content)`: overwrites an existing regular
file or creates the file when its parent is an existing directory; fails on
a directory target or a missing/non-directory parent. -/
def writeFile (fs : FS) (p : PyPath) (c : String) : Option FS :=
  match fs p with
  | .file _ => some (fun q => if q = p then .file c else fs q)
  | .dir => Option.none
  | .none =>
    match fs p.parent with
    | .dir => some (fun q => if q = p then .file c else fs q)
    | _ => Option.none

/-- One `mkdir` step with `exist_ok=True`: an existing directory is fine, an
existing regular file raises, a missing path is created as a directory. -/
def ensureDir (fs : FS) (p : PyPath) : Option FS :=
  match fs p with
  | .dir => some fs
  | .file _ => Option.none
  | .none => some (fun q => if q = p then .dir else fs q)

/-- The prefix of a path keeping its first `n` parts. -/
def takePath (p : PyPath) (n : Nat) : PyPath :=
  ⟨p.absolute, p.segments.take n⟩

/-- Ensure, shortest first, every prefix of a path up to its first `n`
parts. -/
def mkdirUpTo (fs : FS) (p : PyPath) : Nat → Option FS
  | 0 => ensureDir fs (takePath p 0)
  | n + 1 => (mkdirUpTo fs p n).bind (fun fs' => ensureDir fs' (takePath p (n + 1)))

/-- Embeds `Path.mkdir(parents=True, exist_ok=True)` on a canonical path:
ensure every prefix of the path, shortest first. -/
def mkdirParents (fs : FS) (p : PyPath) : Option FS :=
  mkdirUpTo fs p p.segments.length

/-- The state of the `MarkdownWiki` window that the navigation core reads
and writes: `current_file`, `project_dir`, the mode flag, the dirty flag,
the editor text and the markdown text last handed to the renderer. -/
structure WikiState where
  current_file : Option PyPath
  project_dir : PyPath
  is_view_mode : Bool
  unsaved_changes : Bool
  editor_content : String
  renderer_text : String
deriving DecidableEq, Repr

/-- Answer of the unsaved-changes `QMessageBox.question` dialog. -/
inductive ConfirmResponse
  | save
  | discard
  | cancel
deriving DecidableEq, Repr

/-- The external confirmation collaborator: the answer to the n-th prompt of
the run. -/
def ConfirmOracle : Type := Nat → ConfirmResponse

/-- Outcome of `save_file`. -/
inductive SaveOutcome
  | noFile
  | saved
  | ioError
deriving DecidableEq, Repr

/-- Embeds `MarkdownWiki.save_file`: no current file reports and returns;
otherwise write the editor content to the current file; on success clear the
dirty flag and, in view mode, re-render; on a write error show a dialog and
change nothing. -/
def save_file (s : WikiState) (fs : FS) : WikiState × FS × SaveOutcome :=
  match s.current_file with
  | Option.none => (s, fs, .noFile)
  | some p =>
    match writeFile fs p s.editor_content with
    | some fs' =>
      ({ s with unsaved_changes := false,
                renderer_text :=
                  if s.is_view_mode then s.editor_content else s.renderer_text },
       fs', .saved)
    | Option.none => (s, fs, .ioError)

/-- Embeds `MarkdownWiki.confirm_discard_changes`: consume one oracle answer;
`Save` runs `save_file` and consents, `Discard` consents without touching
anything, `Cancel` refuses. -/
def confirm_discard_changes (s : WikiState) (fs : FS) (oracle : ConfirmOracle)
    (k : Nat) : Bool × WikiState × FS × Nat :=
  match oracle k with
  | .save =>
    let r := save_file s fs
    (true, r.1, r.2.1, k + 1)
  | .discard => (true, s, fs, k + 1)
  | .cancel => (false, s, fs, k + 1)

/-- Outcome of a navigation or file-open attempt, one constructor per exit
path of `navigate_to_file` / `open_file`. -/
inductive Outcome
  | cancelled
  | outsideRoot
  | notFound
  | opened
  | openCancelled
  | openFailed
deriving DecidableEq, Repr

/-- Result of a navigation or file-open attempt: new state, new filesystem,
next confirmation-prompt index, and the outcome. -/
structure NavResult where
  state : WikiState
  fs : FS
  next : Nat
  out : Outcome

/-- The read-and-display half of `MarkdownWiki.open_file` (after its gate):
read the file; on success set the editor and the renderer to the content,
set `current_file`, clear the dirty flag; on a read error show a dialog and
change nothing. -/
def open_file_read (s : WikiState) (fs : FS) (k : Nat) (p : PyPath) : NavResult :=
  match readFile fs p with
  | some content =>
    ⟨{ s with editor_content := content, renderer_text := content,
              current_file := some p, unsaved_changes := false },
     fs, k, .opened⟩
  | Option.none => ⟨s, fs, k, .openFailed⟩

/-- Embeds `MarkdownWiki.open_file`: when the dirty flag is set, ask the
confirmation collaborator first and stop if it refuses; then read and
display the file. -/
def open_file (s : WikiState) (fs : FS) (oracle : ConfirmOracle) (k : Nat)
    (p : PyPath) : NavResult :=
  if s.unsaved_changes then
    match confirm_discard_changes s fs oracle k with
    | (true, s', fs', k') => open_file_read s' fs' k' p
    | (false, s', fs', k') => ⟨s', fs', k', .openCancelled⟩
  else open_file_read s fs k p

/-- The path `navigate_to_file` computes from a raw target string (lines
294-305 of src/main.py): parse the target; when it is relative and a current
file is set, join it onto the current file's directory and resolve; then
resolve once more against the process working directory. -/
def resolveTarget (current_file : Option PyPath) (cwd : PyPath)
    (target : String) : PyPath :=
  let p0 := parsePath target
  let p1 :=
    match current_file with
    | some cf => if ¬ p0.absolute then PyPath.resolve cwd (cf.parent.join p0) else p0
    | Option.none => p0
  PyPath.resolve cwd p1

/-- The resolution half of `MarkdownWiki.navigate_to_file` (after its gate):
reject when the project directory is neither a parent of the resolved path
nor the path itself; reject when nothing exists at the path; otherwise hand
the path to `open_file`. -/
def navigate_resolve (s : WikiState) (fs : FS) (cwd : PyPath)
    (oracle : ConfirmOracle) (k : Nat) (target : String) : NavResult :=
  let r := resolveTarget s.current_file cwd target
  if s.project_dir ∉ r.parentsList ∧ r ≠ s.project_dir then
    ⟨s, fs, k, .outsideRoot⟩
  else if fs r = .none then
    ⟨s, fs, k, .notFound⟩
  else open_file s fs oracle k r

/-- Embeds `MarkdownWiki.navigate_to_file`: when the dirty flag is set, ask
the confirmation collaborator first and stop if it refuses; then resolve the
target and proceed. -/
def navigate_to_file (s : WikiState) (fs : FS) (cwd : PyPath)
    (oracle : ConfirmOracle) (k : Nat) (target : String) : NavResult :=
  if s.unsaved_changes then
    match confirm_discard_changes s fs oracle k with
    | (true, s', fs', k') => navigate_resolve s' fs' cwd oracle k' target
    | (false, s', fs', k') => ⟨s', fs', k', .cancelled⟩
  else navigate_resolve s fs cwd oracle k target

/-- Embeds `MarkdownWiki.set_project_directory`: assign `project_dir` to the
parsed path (line 200, before any filesystem work), then create the
directory and its missing parents; a `mkdir` failure raises after the
assignment, so the state component is returned unconditionally and the
filesystem component is `none` on failure. No file is read. -/
def set_project_directory (s : WikiState) (fs : FS) (cwd : PyPath)
    (directory_path : String) : WikiState × Option FS :=
  let p := parsePath directory_path
  ({ s with project_dir := p }, mkdirParents fs (PyPath.resolve cwd p))

/-- Embeds `MarkdownWiki.toggle_view_mode`: flip the mode flag; entering view
mode re-renders the in-memory editor content into the renderer; entering
edit mode only switches widgets. Takes no filesystem argument: nothing is
read from disk. -/
def toggle_view_mode (s : WikiState) : WikiState :=
  let v := !s.is_view_mode
  if v then { s with is_view_mode := v, renderer_text := s.editor_content }
  else { s with is_view_mode := v }

/-- The window state at application start (`__init__`, lines 110-115), with
`project_dir` as first assigned by the startup call to
`set_project_directory`. -/
def initState (root : PyPath) : WikiState :=
  ⟨Option.none, root, false, false, "", ""⟩

/-- States and filesystems the application can reach: start with
`set_project_directory` on the fresh window (as `__main__` does), then any
interleaving of navigations, project-directory changes, saves and mode
toggles. -/
inductive Reachable (cwd : PyPath) : WikiState → FS → Prop
  | init (d : String) (fs0 fs1 : FS)
      (h : mkdirParents fs0 (PyPath.resolve cwd (parsePath d)) = some fs1) :
      Reachable cwd (initState (parsePath d)) fs1
  | nav (s : WikiState) (fs : FS) (oracle : ConfirmOracle) (k : Nat)
      (target : String) (h : Reachable cwd s fs) :
      Reachable cwd (navigate_to_file s fs cwd oracle k target).state
        (navigate_to_file s fs cwd oracle k target).fs
  | setRoot (s : WikiState) (fs fs' : FS) (d : String) (h : Reachable cwd s fs)
      (hfs : (set_project_directory s fs cwd d).2 = some fs') :
      Reachable cwd (set_project_directory s fs cwd d).1 fs'
  | save (s : WikiState) (fs : FS) (h : Reachable cwd s fs) :
      Reachable cwd (save_file s fs).1 (save_file s fs).2.1
  | toggle (s : WikiState) (fs : FS) (h : Reachable cwd s fs) :
      Reachable cwd (toggle_view_mode s) fs

/-! ### Concrete fixtures used by witnesses and counterexamples -/

/-- Process working directory used by the concrete scenarios. -/
def cwdC : PyPath := parsePath "/home"

/-- Wiki root of the concrete scenarios (spec section 8 uses `/wiki`). -/
def rootC : PyPath := parsePath "/wiki"

/-- The currently open document of the concrete scenarios. -/
def fileB : PyPath := parsePath "/wiki/a/b.md"

/-- Concrete filesystem: `/wiki/a/b.md` and `/wiki/a/c.md` are regular files,
`/`, `/wiki` and `/wiki/a` are directories, everything else is absent. -/
def fsC : FS := fun q =>
  if q = parsePath "/" then .dir
  else if q = parsePath "/wiki" then .dir
  else if q = parsePath "/wiki/a" then .dir
  else if q = parsePath "/wiki/a/b.md" then .file "hello"
  else if q = parsePath "/wiki/a/c.md" then .file "cee"
  else .none

/-- Clean window state: `/wiki/a/b.md` open, no unsaved changes. -/
def stC : WikiState := ⟨some fileB, rootC, false, false, "hello", ""⟩

/-- Dirty window state: as `stC` but with an unsaved edit in the editor. -/
def dirtyC : WikiState := { stC with unsaved_changes := true, editor_content := "edited" }

/-- Confirmation collaborator that always answers `Discard`. -/
def oracleDiscard : ConfirmOracle := fun _ => .discard

/-- Confirmation collaborator that always answers `Save`. -/
def oracleSave : ConfirmOracle := fun _ => .save

/-! ### Helper lemmas -/

lemma not_withinRoot_iff (root p : PyPath) :
    ¬ withinRoot root p ↔ (root ∉ p.parentsList ∧ p ≠ root) := by
  unfold withinRoot
  tauto

lemma save_file_preserves (s : WikiState) (fs : FS) :
    (save_file s fs).1.current_file = s.current_file ∧
    (save_file s fs).1.project_dir = s.project_dir ∧
    (save_file s fs).1.editor_content = s.editor_content := by
  unfold save_file
  cases hcf : s.current_file with
  | none => simp [hcf]
  | some p =>
    cases hw : writeFile fs p s.editor_content with
    | none => simp [hw, hcf]
    | some fs' => simp [hw, hcf]

lemma foldl_collapse_no_dotdot (l : List String) :
    ∀ acc : List String, ".." ∉ acc →
      ".." ∉ l.foldl (fun acc seg => if seg = ".." then acc.dropLast else acc ++ [seg]) acc := by
  induction l with
  | nil => intro acc h; simpa using h
  | cons s t ih =>
    intro acc h
    by_cases hs : s = ".."
    · subst hs
      simp only [List.foldl_cons, if_pos rfl]
      exact ih _ (fun hm => h (List.dropLast_subset _ hm))
    · simp only [List.foldl_cons, if_neg hs]
      refine ih _ ?_
      intro hm
      rcases List.mem_append.mp hm with hm | hm
      · exact h hm
      · simp at hm
        exact hs hm.symm

lemma resolveSegs_no_dotdot (l : List String) : ".." ∉ resolveSegs l :=
  foldl_collapse_no_dotdot l [] (by simp)

lemma foldl_collapse_of_clean (l : List String) (hl : ".." ∉ l) :
    ∀ acc : List String,
      l.foldl (fun acc seg => if seg = ".." then acc.dropLast else acc ++ [seg]) acc = acc ++ l := by
  induction l with
  | nil => intro acc; simp
  | cons s t ih =>
    intro acc
    have hs : s ≠ ".." := fun h => hl (h ▸ List.mem_cons_self s t)
    have ht : ".." ∉ t := fun h => hl (List.mem_cons_of_mem s h)
    simp only [List.foldl_cons, if_neg hs, ih ht]
    simp

lemma resolveSegs_idem (l : List String) : resolveSegs (resolveSegs l) = resolveSegs l := by
  have := foldl_collapse_of_clean (resolveSegs l) (resolveSegs_no_dotdot l) []
  simpa [resolveSegs] using this

lemma resolve_idem (cwd p : PyPath) :
    PyPath.resolve cwd (PyPath.resolve cwd p) = PyPath.resolve cwd p := by
  unfold PyPath.resolve
  simp [resolveSegs_idem]

/-! ### Claim C8 -/

/-- Claim C8: the Edit/View toggle changes only the mode: it never modifies
the current document, the wiki root, or the editor content; toggling twice
leaves the editor content identical; entering View renders the current
in-memory editor content into the preview (the toggle takes no filesystem
argument, so nothing is re-read from disk). -/
theorem toggle_frame_C8 (s : WikiState) :
    (toggle_view_mode s).current_file = s.current_file ∧
    (toggle_view_mode s).project_dir = s.project_dir ∧
    (toggle_view_mode s).editor_content = s.editor_content ∧
    (toggle_view_mode (toggle_view_mode s)).editor_content = s.editor_content ∧
    (toggle_view_mode s).is_view_mode = !s.is_view_mode ∧
    (toggle_view_mode s).renderer_text =
      (if s.is_view_mode then s.renderer_text else s.editor_content) := by
  unfold toggle_view_mode
  cases h : s.is_view_mode <;> simp [h]

/-! ### Claim C4 -/

/-- Claim C4 (amended): `set_project_directory` replaces the wiki root with
the given path and loads no file (editor, renderer, dirty flag untouched),
but it does NOT clear the current document: `current_file` keeps its
previous value. -/
theorem set_root_frame_C4 (s : WikiState) (fs : FS) (cwd : PyPath) (d : String) :
    (set_project_directory s fs cwd d).1.project_dir = parsePath d ∧
    (set_project_directory s fs cwd d).1.current_file = s.current_file ∧
    (set_project_directory s fs cwd d).1.editor_content = s.editor_content ∧
    (set_project_directory s fs cwd d).1.renderer_text = s.renderer_text ∧
    (set_project_directory s fs cwd d).1.unsaved_changes = s.unsaved_changes := by
  unfold set_project_directory
  simp

/-- Claim C4 counterexample: with `/wiki/a/b.md` open, switching the project
to `/other` succeeds but leaves `current_file` set to `/wiki/a/b.md` instead
of clearing it to `None` (and that document is not inside the new root). -/
theorem set_root_counterexample_C4 :
    (set_project_directory stC fsC cwdC "/other").1.current_file = some fileB ∧
    some fileB ≠ (Option.none : Option PyPath) ∧
    ¬ withinRoot (set_project_directory stC fsC cwdC "/other").1.project_dir fileB := by
  decide

/-! ### Claim C7 -/

/-- Claim C7: when writing the current file fails, `save_file` returns with
the state and the filesystem exactly as they were; in particular the dirty
flag keeps the value it had before the save attempt. -/
theorem save_fail_keeps_dirty_C7 (s : WikiState) (fs : FS) (p : PyPath)
    (hcf : s.current_file = some p)
    (hw : writeFile fs p s.editor_content = Option.none) :
    save_file s fs = (s, fs, SaveOutcome.ioError) ∧
    (save_file s fs).1.unsaved_changes = s.unsaved_changes := by
  unfold save_file
  simp [hcf, hw]

/-- Dirty state whose current document sits under a directory that does not
exist, so that any write to it fails. -/
def roStateC : WikiState := { dirtyC with current_file := some (parsePath "/nope/x.md") }

/-- Witness for C7: a concrete failed save that leaves the dirty flag set. -/
theorem save_fail_keeps_dirty_witness_C7 :
    save_file roStateC fsC = (roStateC, fsC, SaveOutcome.ioError) ∧
    (save_file roStateC fsC).1.unsaved_changes = roStateC.unsaved_changes :=
  save_fail_keeps_dirty_C7 roStateC fsC (parsePath "/nope/x.md") rfl rfl

/-! ### Claim C3 -/

/-- Claim C3 (amended), stated on the path `navigate_to_file` computes: a
relative target with a current document set is resolved against the current
document's parent directory; an absolute target is used as-is (then
canonicalized); but a relative target with NO current document is resolved
against the process working directory, not the wiki root. -/
theorem resolve_base_C3 (cf cwd : PyPath) (t : String) :
    (¬ (parsePath t).absolute →
      resolveTarget (some cf) cwd t = PyPath.resolve cwd (cf.parent.join (parsePath t))) ∧
    (resolveTarget Option.none cwd t = PyPath.resolve cwd (parsePath t)) ∧
    ((parsePath t).absolute →
      resolveTarget (some cf) cwd t = PyPath.resolve cwd (parsePath t)) := by
  unfold resolveTarget
  refine ⟨fun h => ?_, rfl, fun h => ?_⟩
  · simp [h, resolve_idem]
  · simp [h]

/-- Witness for C3: the three cases of `resolve_base_C3` at concrete inputs
(spec scenario A's shape for the relative case). -/
theorem resolve_base_witness_C3 :
    resolveTarget (some fileB) cwdC "./c.md" =
      PyPath.resolve cwdC (fileB.parent.join (parsePath "./c.md")) ∧
    resolveTarget Option.none cwdC "a.md" = PyPath.resolve cwdC (parsePath "a.md") ∧
    resolveTarget (some fileB) cwdC "/wiki/z.md" =
      PyPath.resolve cwdC (parsePath "/wiki/z.md") :=
  ⟨(resolve_base_C3 fileB cwdC "./c.md").1 (by decide),
   (resolve_base_C3 fileB cwdC "a.md").2.1,
   (resolve_base_C3 fileB cwdC "/wiki/z.md").2.2 (by decide)⟩

/-- Follows the spec's words (section 4.1): with no current document a
relative target is resolved relative to `wiki_root`. Used only to compare
the spec's resolution rule with the code's. -/
def resolveNoCurrentSpec (wiki_root : PyPath) (t : String) : PyPath :=
  PyPath.resolve wiki_root (parsePath t)

/-- Claim C3 counterexample: root `/wiki`, working directory `/home`, no
current document, target `a.md`: the code resolves it to `/home/a.md`
(against the process working directory), while the spec's rule gives
`/wiki/a.md`; navigation therefore rejects it as outside the root. -/
theorem resolve_nocurrent_counterexample_C3 :
    resolveTarget Option.none cwdC "a.md" ≠ resolveNoCurrentSpec rootC "a.md" ∧
    resolveTarget Option.none cwdC "a.md" = parsePath "/home/a.md" ∧
    resolveNoCurrentSpec rootC "a.md" = parsePath "/wiki/a.md" ∧
    (navigate_to_file ⟨Option.none, rootC, false, false, "", ""⟩ fsC cwdC
      oracleDiscard 0 "a.md").out = Outcome.outsideRoot := by
  decide

/-! ### Claim C10 -/

/-- Claim C10: with unsaved changes and `Discard` answered at both prompts,
a single successful navigation consumes two confirmation prompts (one in
`navigate_to_file`, one more in `open_file`) before the target file is
loaded into the editor. -/
theorem navigate_double_prompt_C10 (s : WikiState) (fs : FS) (cwd : PyPath)
    (oracle : ConfirmOracle) (k : Nat) (target : String) (c : String)
    (hdirty : s.unsaved_changes = true)
    (h1 : oracle k = .discard) (h2 : oracle (k + 1) = .discard)
    (hin : withinRoot s.project_dir (resolveTarget s.current_file cwd target))
    (hfile : fs (resolveTarget s.current_file cwd target) = .file c) :
    navigate_to_file s fs cwd oracle k target =
      ⟨{ s with editor_content := c, renderer_text := c,
                current_file := some (resolveTarget s.current_file cwd target),
                unsaved_changes := false }, fs, k + 2, .opened⟩ := by
  have hnot : ¬ (s.project_dir ∉ (resolveTarget s.current_file cwd target).parentsList ∧
      resolveTarget s.current_file cwd target ≠ s.project_dir) := by
    rcases hin with h | h <;> tauto
  unfold navigate_to_file navigate_resolve open_file open_file_read confirm_discard_changes readFile
  simp only [hdirty, h1, h2, hnot, hfile, if_true, if_false, ite_true, ite_false, if_neg, reduceIte]
  simp [hfile]

/-- Witness for C10: dirty state, `Discard` twice, navigating `./c.md` from
`/wiki/a/b.md` consumes prompts 0 and 1 (next index 2) and opens the file. -/
theorem navigate_double_prompt_witness_C10 :
    navigate_to_file dirtyC fsC cwdC oracleDiscard 0 "./c.md" =
      ⟨{ dirtyC with editor_content := "cee", renderer_text := "cee",
                     current_file := some (resolveTarget dirtyC.current_file cwdC "./c.md"),
                     unsaved_changes := false }, fsC, 2, .opened⟩ :=
  navigate_double_prompt_C10 dirtyC fsC cwdC oracleDiscard 0 "./c.md" "cee"
    rfl rfl rfl (by decide) rfl

/-! ### Claim C5 -/

lemma open_file_no_save (s : WikiState) (fs : FS) (oracle : ConfirmOracle)
    (k : Nat) (p : PyPath) (hns : ∀ n, oracle n ≠ .save)
    (hfail : (open_file s fs oracle k p).out ≠ .opened) :
    (open_file s fs oracle k p).state = s ∧ (open_file s fs oracle k p).fs = fs := by
  unfold open_file open_file_read at *
  by_cases hd : s.unsaved_changes
  · rcases ho : oracle k with _ | _ | _
    · exact absurd ho (hns k)
    · simp only [confirm_discard_changes, ho, hd] at hfail ⊢
      cases hr : readFile fs p with
      | none => simp [hr]
      | some c => simp [hr] at hfail
    · simp [confirm_discard_changes, ho, hd]
  · simp only [hd] at hfail ⊢
    cases hr : readFile fs p with
    | none => simp [hr]
    | some c => simp [hr] at hfail

lemma navigate_resolve_no_save (s : WikiState) (fs : FS) (cwd : PyPath)
    (oracle : ConfirmOracle) (k : Nat) (target : String)
    (hns : ∀ n, oracle n ≠ .save)
    (hfail : (navigate_resolve s fs cwd oracle k target).out ≠ .opened) :
    (navigate_resolve s fs cwd oracle k target).state = s ∧
    (navigate_resolve s fs cwd oracle k target).fs = fs := by
  unfold navigate_resolve at *
  by_cases hc : s.project_dir ∉ (resolveTarget s.current_file cwd target).parentsList ∧
      resolveTarget s.current_file cwd target ≠ s.project_dir
  · simp [hc]
  · by_cases he : fs (resolveTarget s.current_file cwd target) = .none
    · simp [hc, he]
    · simp only [hc, he, if_false, ite_false, reduceIte, if_neg] at hfail ⊢
      exact open_file_no_save s fs oracle k _ hns hfail

/-- Claim C5 (amended): provided the user never answers `Save` at the
unsaved-changes prompt, every navigation attempt that does not end in a
successful open (rejection, read failure, or Cancel at either prompt)
leaves the whole window state — current document, wiki root, dirty flag,
editor content — and the filesystem exactly as they were. -/
theorem navigate_atomic_C5 (s : WikiState) (fs : FS) (cwd : PyPath)
    (oracle : ConfirmOracle) (k : Nat) (target : String)
    (hns : ∀ n, oracle n ≠ .save)
    (hfail : (navigate_to_file s fs cwd oracle k target).out ≠ .opened) :
    (navigate_to_file s fs cwd oracle k target).state = s ∧
    (navigate_to_file s fs cwd oracle k target).fs = fs := by
  unfold navigate_to_file at *
  by_cases hd : s.unsaved_changes
  · rcases ho : oracle k with _ | _ | _
    · exact absurd ho (hns k)
    · simp only [confirm_discard_changes, ho, hd, if_true, ite_true] at hfail ⊢
      exact navigate_resolve_no_save s fs cwd oracle (k + 1) target hns hfail
    · simp [confirm_discard_changes, ho, hd]
  · simp only [hd] at hfail ⊢
    simp only [Bool.false_eq_true, if_false, ite_false, reduceIte] at hfail ⊢
    exact navigate_resolve_no_save s fs cwd oracle k target hns hfail

/-- Witness for C5: a concrete `NotFound` attempt changes neither the state
nor the filesystem. -/
theorem navigate_atomic_witness_C5 :
    (navigate_to_file stC fsC cwdC oracleDiscard 0 "./missing.md").state = stC ∧
    (navigate_to_file stC fsC cwdC oracleDiscard 0 "./missing.md").fs = fsC :=
  navigate_atomic_C5 stC fsC cwdC oracleDiscard 0 "./missing.md"
    (fun _ h => ConfirmResponse.noConfusion h) (by decide)

/-- Claim C5 counterexample: with unsaved changes, answering `Save` at the
prompt and then failing the navigation (target outside the root) clears the
dirty flag (and writes the file), so the attempt is not atomic. -/
theorem navigate_atomic_counterexample_C5 :
    dirtyC.unsaved_changes = true ∧
    (navigate_to_file dirtyC fsC cwdC oracleSave 0 "../../../etc/passwd").out =
      Outcome.outsideRoot ∧
    (navigate_to_file dirtyC fsC cwdC oracleSave 0 "../../../etc/passwd").state.unsaved_changes
      = false := by
  decide

/-! ### Claim C2 -/

lemma open_file_out_cases (s : WikiState) (fs : FS) (oracle : ConfirmOracle)
    (k : Nat) (p : PyPath) :
    (open_file s fs oracle k p).out = .opened ∨
    (open_file s fs oracle k p).out = .openCancelled ∨
    (open_file s fs oracle k p).out = .openFailed := by
  unfold open_file open_file_read confirm_discard_changes
  by_cases hd : s.unsaved_changes
  · rcases ho : oracle k with _ | _ | _
    · simp only [hd, ho, if_true, ite_true]
      rcases hr : readFile (save_file s fs).2.1 p with _ | c <;> simp [hr]
    · simp only [hd, ho, if_true, ite_true]
      rcases hr : readFile fs p with _ | c <;> simp [hr]
    · simp [hd, ho]
  · simp only [hd, Bool.false_eq_true, if_false, ite_false, reduceIte]
    rcases hr : readFile fs p with _ | c <;> simp [hr]

lemma navigate_resolve_checks (s : WikiState) (fs : FS) (cwd : PyPath)
    (oracle : ConfirmOracle) (k : Nat) (target : String) :
    (((navigate_resolve s fs cwd oracle k target).out = .opened ∨
      (navigate_resolve s fs cwd oracle k target).out = .openCancelled ∨
      (navigate_resolve s fs cwd oracle k target).out = .openFailed) →
      fs (resolveTarget s.current_file cwd target) ≠ Entry.none ∧
      withinRoot s.project_dir (resolveTarget s.current_file cwd target)) ∧
    (withinRoot s.project_dir (resolveTarget s.current_file cwd target) →
      fs (resolveTarget s.current_file cwd target) = Entry.none →
      (navigate_resolve s fs cwd oracle k target).out = .notFound) := by
  unfold navigate_resolve
  by_cases hc : s.project_dir ∉ (resolveTarget s.current_file cwd target).parentsList ∧
      resolveTarget s.current_file cwd target ≠ s.project_dir
  · rw [if_pos hc]
    constructor
    · intro h
      rcases h with h | h | h <;> simp at h
    · intro hin _
      exact absurd hin ((not_withinRoot_iff _ _).mpr ⟨hc.1, hc.2⟩)
  · rw [if_neg hc]
    have hin : withinRoot s.project_dir (resolveTarget s.current_file cwd target) := by
      by_contra hno
      exact hc ((not_withinRoot_iff _ _).mp hno)
    by_cases he : fs (resolveTarget s.current_file cwd target) = .none
    · rw [if_pos he]
      constructor
      · intro h
        rcases h with h | h | h <;> simp at h
      · intro _ _
        rfl
    · rw [if_neg he]
      exact ⟨fun _ => ⟨he, hin⟩, fun _ habs => absurd habs he⟩

/-- Claim C2 (amended): when navigation proceeds to the open step (outcome
`opened`, `openCancelled` or `openFailed`), the resolved path exists and is
equal to or a descendant of the wiki root — but it need not be a regular
file, since the code only checks existence; and when the in-root resolved
path does not exist, the attempt ends in `NotFound` (or `Cancelled` at the
prompt) and no open is attempted. (The user is assumed not to answer `Save`
at the prompt, which would run a save first.) -/
theorem navigate_open_checks_C2 (s : WikiState) (fs : FS) (cwd : PyPath)
    (oracle : ConfirmOracle) (k : Nat) (target : String)
    (hns : ∀ n, oracle n ≠ .save) :
    (((navigate_to_file s fs cwd oracle k target).out = .opened ∨
      (navigate_to_file s fs cwd oracle k target).out = .openCancelled ∨
      (navigate_to_file s fs cwd oracle k target).out = .openFailed) →
      fs (resolveTarget s.current_file cwd target) ≠ Entry.none ∧
      withinRoot s.project_dir (resolveTarget s.current_file cwd target)) ∧
    (withinRoot s.project_dir (resolveTarget s.current_file cwd target) →
      fs (resolveTarget s.current_file cwd target) = Entry.none →
      (navigate_to_file s fs cwd oracle k target).out = .notFound ∨
      (navigate_to_file s fs cwd oracle k target).out = .cancelled) := by
  unfold navigate_to_file
  by_cases hd : s.unsaved_changes
  · rcases ho : oracle k with _ | _ | _
    · exact absurd ho (hns k)
    · simp only [confirm_discard_changes, ho, hd, if_true, ite_true]
      exact ⟨(navigate_resolve_checks s fs cwd oracle (k + 1) target).1,
        fun hin he => Or.inl ((navigate_resolve_checks s fs cwd oracle (k + 1) target).2 hin he)⟩
    · simp only [confirm_discard_changes, ho, hd, if_true, ite_true]
      exact ⟨fun h => by rcases h with h | h | h <;> simp at h,
        fun _ _ => Or.inr (by trivial)⟩
  · simp only [hd, Bool.false_eq_true, if_false, ite_false, reduceIte]
    exact ⟨(navigate_resolve_checks s fs cwd oracle k target).1,
      fun hin he => Or.inl ((navigate_resolve_checks s fs cwd oracle k target).2 hin he)⟩

/-- Witness for C2: navigating `./c.md` from `/wiki/a/b.md` opens it, and the
theorem yields that the resolved path exists and is inside the root. -/
theorem navigate_open_checks_witness_C2 :
    fsC (resolveTarget stC.current_file cwdC "./c.md") ≠ Entry.none ∧
    withinRoot stC.project_dir (resolveTarget stC.current_file cwdC "./c.md") :=
  (navigate_open_checks_C2 stC fsC cwdC oracleDiscard 0 "./c.md"
    (fun _ h => ConfirmResponse.noConfusion h)).1 (Or.inl (by decide))

/-- Claim C2 counterexample: the target `/wiki/a` resolves to an existing
DIRECTORY inside the root; the code's existence check lets it through to the
open step (whose read then fails), refuting "refers to a regular file
(never a directory)". -/
theorem navigate_dir_counterexample_C2 :
    (navigate_to_file stC fsC cwdC oracleDiscard 0 "/wiki/a").out = Outcome.openFailed ∧
    fsC (resolveTarget stC.current_file cwdC "/wiki/a") = Entry.dir := by
  decide

/-! ### Claim C1 -/

/-- Claim C1 (amended): whenever the canonicalized resolution of the target
is neither the wiki root nor a descendant of it, `navigate_to_file` rejects
the attempt with `OutsideRoot` (or stops at the unsaved-changes prompt with
`Cancelled`) and never opens the file: the current document, the wiki root
and the editor content are left untouched. (The reachable-state invariant
of the original claim fails; see the counterexample.) -/
theorem navigate_outside_reject_C1 (s : WikiState) (fs : FS) (cwd : PyPath)
    (oracle : ConfirmOracle) (k : Nat) (target : String)
    (hout : ¬ withinRoot s.project_dir (resolveTarget s.current_file cwd target)) :
    ((navigate_to_file s fs cwd oracle k target).out = .outsideRoot ∨
     (navigate_to_file s fs cwd oracle k target).out = .cancelled) ∧
    (navigate_to_file s fs cwd oracle k target).state.current_file = s.current_file ∧
    (navigate_to_file s fs cwd oracle k target).state.project_dir = s.project_dir ∧
    (navigate_to_file s fs cwd oracle k target).state.editor_content = s.editor_content := by
  have hcond := (not_withinRoot_iff _ _).mp hout
  unfold navigate_to_file navigate_resolve
  by_cases hd : s.unsaved_changes
  · rcases ho : oracle k with _ | _ | _
    · simp only [confirm_discard_changes, ho, hd, if_true, ite_true]
      obtain ⟨h1, h2, h3⟩ := save_file_preserves s fs
      simp only [h1, h2]
      rw [if_pos hcond]
      exact ⟨Or.inl rfl, h1, h2, h3⟩
    · simp only [confirm_discard_changes, ho, hd, if_true, ite_true]
      rw [if_pos hcond]
      exact ⟨Or.inl (by trivial), by trivial, by trivial, by trivial⟩
    · simp only [confirm_discard_changes, ho, hd, if_true, ite_true]
      exact ⟨Or.inr (by trivial), by trivial, by trivial, by trivial⟩
  · simp only [hd, Bool.false_eq_true, if_false, ite_false, reduceIte]
    rw [if_pos hcond]
    exact ⟨Or.inl (by trivial), by trivial, by trivial, by trivial⟩

/-- Witness for C1: spec scenario B — from `/wiki/a/b.md` the target
`../../../etc/passwd` resolves to `/etc/passwd`, outside `/wiki`, and is
rejected with the state untouched. -/
theorem navigate_outside_reject_witness_C1 :
    ((navigate_to_file stC fsC cwdC oracleDiscard 0 "../../../etc/passwd").out = .outsideRoot ∨
     (navigate_to_file stC fsC cwdC oracleDiscard 0 "../../../etc/passwd").out = .cancelled) ∧
    (navigate_to_file stC fsC cwdC oracleDiscard 0 "../../../etc/passwd").state.current_file
      = stC.current_file ∧
    (navigate_to_file stC fsC cwdC oracleDiscard 0 "../../../etc/passwd").state.project_dir
      = stC.project_dir ∧
    (navigate_to_file stC fsC cwdC oracleDiscard 0 "../../../etc/passwd").state.editor_content
      = stC.editor_content :=
  navigate_outside_reject_C1 stC fsC cwdC oracleDiscard 0 "../../../etc/passwd" (by decide)

/-- State after opening `/wiki/a/b.md` from the fresh window. -/
def c1s1 : WikiState :=
  (navigate_to_file (initState (parsePath "/wiki")) fsC cwdC oracleDiscard 0 "/wiki/a/b.md").state

/-- State after then switching the project directory to `/other`. -/
def c1s2 : WikiState := (set_project_directory c1s1 fsC cwdC "/other").1

/-- Filesystem after `mkdir -p /other` on `fsC`. -/
def c1fs2 : FS := fun q => if q = (⟨true, ["other"]⟩ : PyPath) then Entry.dir else fsC q

/-- Claim C1 counterexample (to the invariant part): open `/wiki/a/b.md`
under root `/wiki`, then switch the project to `/other`; the reached state
has the current document still set to `/wiki/a/b.md`, which is not within
the new wiki root, because `set_project_directory` never clears it. -/
theorem navigate_invariant_counterexample_C1 :
    Reachable cwdC c1s2 c1fs2 ∧
    c1s2.current_file = some fileB ∧
    ¬ withinRoot c1s2.project_dir fileB := by
  refine ⟨?_, by decide, by decide⟩
  have h0 : Reachable cwdC (initState (parsePath "/wiki")) fsC :=
    Reachable.init "/wiki" fsC fsC rfl
  have h1 : Reachable cwdC c1s1 fsC :=
    Reachable.nav (initState (parsePath "/wiki")) fsC oracleDiscard 0 "/wiki/a/b.md" h0
  exact Reachable.setRoot c1s1 fsC c1fs2 "/other" h1 rfl

/-! ### Claim C6 -/

/-- Claim C6 (amended): there is no `Malformed` outcome. An empty target
parses as the empty relative path (`Path("")` = `Path(".")`), so with a
current document set it resolves to that document's directory and goes
through the normal containment and existence checks; when that directory is
inside the root, the code proceeds to the open step, whose read fails (the
path is a directory), leaving the state unchanged. -/
theorem navigate_empty_target_C6 (s : WikiState) (fs : FS) (cwd : PyPath)
    (oracle : ConfirmOracle) (k : Nat) (cf : PyPath)
    (hcf : s.current_file = some cf)
    (hclean : s.unsaved_changes = false) :
    resolveTarget s.current_file cwd "" = PyPath.resolve cwd cf.parent ∧
    (withinRoot s.project_dir (PyPath.resolve cwd cf.parent) →
     fs (PyPath.resolve cwd cf.parent) = Entry.dir →
     (navigate_to_file s fs cwd oracle k "").out = Outcome.openFailed ∧
     (navigate_to_file s fs cwd oracle k "").state = s) := by
  have hres : resolveTarget s.current_file cwd "" = PyPath.resolve cwd cf.parent := by
    rw [hcf]
    unfold resolveTarget
    have hparse : parsePath "" = ⟨false, []⟩ := rfl
    simp [hparse, PyPath.join, resolve_idem]
  refine ⟨hres, fun hin hdir => ?_⟩
  have hnc : ¬ (s.project_dir ∉ (PyPath.resolve cwd cf.parent).parentsList ∧
      PyPath.resolve cwd cf.parent ≠ s.project_dir) :=
    fun hC => (not_withinRoot_iff _ _).mpr hC hin
  unfold navigate_to_file navigate_resolve open_file open_file_read readFile
  simp only [hclean, Bool.false_eq_true, if_false, ite_false, reduceIte, hres]
  rw [if_neg hnc, if_neg (by simp [hdir])]
  simp [hdir]

/-- Witness for C6: from `/wiki/a/b.md`, the empty target resolves to the
directory `/wiki/a` and the attempt ends with the failed open of that
directory, state unchanged. -/
theorem navigate_empty_target_witness_C6 :
    (navigate_to_file stC fsC cwdC oracleDiscard 0 "").out = Outcome.openFailed ∧
    (navigate_to_file stC fsC cwdC oracleDiscard 0 "").state = stC :=
  (navigate_empty_target_C6 stC fsC cwdC oracleDiscard 0 fileB rfl rfl).2
    (by decide) (by decide)

/-- Claim C6 counterexample: the empty target is not rejected as malformed —
it is interpreted as `.`, resolves to `/wiki/a`, and the code attempts to
open that directory (outcome `openFailed` arises inside the open step, after
both resolution checks passed). -/
theorem navigate_empty_counterexample_C6 :
    parsePath "" = parsePath "." ∧
    resolveTarget stC.current_file cwdC "" = parsePath "/wiki/a" ∧
    (navigate_to_file stC fsC cwdC oracleDiscard 0 "").out = Outcome.openFailed ∧
    (navigate_to_file stC fsC cwdC oracleDiscard 0 "").out ≠ Outcome.outsideRoot ∧
    (navigate_to_file stC fsC cwdC oracleDiscard 0 "").out ≠ Outcome.notFound ∧
    (navigate_to_file stC fsC cwdC oracleDiscard 0 "").out ≠ Outcome.cancelled := by
  decide

/-! ### Claim C9 -/

/-- Whether an entry is a regular file. -/
def Entry.isFile : Entry → Bool
  | .file _ => true
  | _ => false

lemma ensureDir_ok (fs : FS) (p : PyPath) (h : (fs p).isFile = false) :
    ∃ fs', ensureDir fs p = some fs' ∧ fs' p = Entry.dir ∧
      ∀ q, fs' q = fs q ∨ fs' q = Entry.dir := by
  unfold ensureDir
  cases he : fs p with
  | dir => exact ⟨fs, rfl, he, fun q => Or.inl rfl⟩
  | file c => rw [he] at h; simp [Entry.isFile] at h
  | none =>
    refine ⟨fun q => if q = p then Entry.dir else fs q, rfl, by simp, fun q => ?_⟩
    by_cases hq : q = p
    · exact Or.inr (by simp [hq])
    · exact Or.inl (by simp [hq])

lemma mkdirUpTo_ok (fs : FS) (p : PyPath) :
    ∀ n, (∀ m, m ≤ n → (fs (takePath p m)).isFile = false) →
    ∃ fs', mkdirUpTo fs p n = some fs' ∧
      (∀ m, m ≤ n → fs' (takePath p m) = Entry.dir) ∧
      (∀ q, fs' q = fs q ∨ fs' q = Entry.dir) := by
  intro n
  induction n with
  | zero =>
    intro h
    obtain ⟨fs', e, hd, hp⟩ := ensureDir_ok fs (takePath p 0) (h 0 le_rfl)
    refine ⟨fs', e, fun m hm => ?_, hp⟩
    have hm0 : m = 0 := Nat.le_zero.mp hm
    subst hm0
    exact hd
  | succ n ih =>
    intro h
    obtain ⟨fs1, e1, d1, p1⟩ := ih (fun m hm => h m (le_trans hm (Nat.le_succ n)))
    have hfile1 : (fs1 (takePath p (n + 1))).isFile = false := by
      rcases p1 (takePath p (n + 1)) with hp | hp
      · rw [hp]; exact h (n + 1) le_rfl
      · rw [hp]; rfl
    obtain ⟨fs2, e2, d2, p2⟩ := ensureDir_ok fs1 (takePath p (n + 1)) hfile1
    refine ⟨fs2, ?_, ?_, ?_⟩
    · show mkdirUpTo fs p (n + 1) = some fs2
      unfold mkdirUpTo
      rw [e1]
      simpa using e2
    · intro m hm
      by_cases hm' : m ≤ n
      · rcases p2 (takePath p m) with hq | hq
        · rw [hq]; exact d1 m hm'
        · exact hq
      · have hm1 : m = n + 1 := by omega
        subst hm1
        exact d2
    · intro q
      rcases p2 q with hq | hq
      · rcases p1 q with hq' | hq'
        · exact Or.inl (hq.trans hq')
        · exact Or.inr (hq.trans hq')
      · exact Or.inr hq

lemma takePath_length (p : PyPath) : takePath p p.segments.length = p := by
  unfold takePath
  simp

/-- Claim C9: when the (canonicalized) project directory does not exist and
no ancestor of it is an existing regular file, `set_project_directory`
succeeds — it creates the directory and every missing parent (all ancestors
end up as directories) instead of failing or rejecting the path, and the
root is replaced. -/
theorem set_root_creates_C9 (s : WikiState) (fs : FS) (cwd : PyPath) (d : String)
    (hmiss : fs (PyPath.resolve cwd (parsePath d)) = Entry.none)
    (hsane : ∀ q ∈ (PyPath.resolve cwd (parsePath d)).parentsList, (fs q).isFile = false) :
    ∃ fs', (set_project_directory s fs cwd d).2 = some fs' ∧
      fs' (PyPath.resolve cwd (parsePath d)) = Entry.dir ∧
      (∀ q ∈ (PyPath.resolve cwd (parsePath d)).parentsList, fs' q = Entry.dir) ∧
      (set_project_directory s fs cwd d).1.project_dir = parsePath d := by
  have hall : ∀ m, m ≤ (PyPath.resolve cwd (parsePath d)).segments.length →
      (fs (takePath (PyPath.resolve cwd (parsePath d)) m)).isFile = false := by
    intro m hm
    rcases lt_or_eq_of_le hm with h' | h'
    · refine hsane _ ?_
      unfold PyPath.parentsList takePath
      exact List.mem_map.mpr ⟨m, List.mem_range.mpr h', rfl⟩
    · rw [h', takePath_length, hmiss]
      rfl
  obtain ⟨fs', e, hd, _⟩ :=
    mkdirUpTo_ok fs (PyPath.resolve cwd (parsePath d))
      (PyPath.resolve cwd (parsePath d)).segments.length hall
  refine ⟨fs', e, ?_, ?_, rfl⟩
  · have := hd (PyPath.resolve cwd (parsePath d)).segments.length le_rfl
    rwa [takePath_length] at this
  · intro q hq
    obtain ⟨m, hm, hqe⟩ := List.mem_map.mp hq
    subst hqe
    exact hd m (le_of_lt (List.mem_range.mp hm))

/-- Filesystem holding only the root directory `/`. -/
def emptyFS : FS := fun q => if q = parsePath "/" then Entry.dir else Entry.none

/-- Witness for C9: on a filesystem with only `/`, switching the project to
`/a/b/c` succeeds (the missing chain is created rather than failing). -/
theorem set_root_creates_witness_C9 :
    ((set_project_directory stC emptyFS cwdC "/a/b/c").2).isSome = true := by
  obtain ⟨fs', h1, _⟩ := set_root_creates_C9 stC emptyFS cwdC "/a/b/c" (by decide) (by decide)
  rw [h1]
  rfl
